import Mathlib

/-!
Shallow embedding of the BLE smartwatch time-sync program (src/src/main.rs).

The program enumerates BLE adapters, scans, filters peripherals by a name
substring, connects, discovers characteristics, and reads/writes the
Bluetooth "Current Time" characteristic with an 11-byte payload encoding
the current UTC instant.

The embedding models:
  * the time payload encoder inside `set_current_time` (lines 154-179);
  * the name matcher (lines 47-56): `properties.unwrap().local_name
    .unwrap_or(placeholder)` followed by `local_name.contains(filter)`;
  * the control flow of `main` (lines 31-147) as a deterministic
    interpreter over an environment describing the platform's responses
    (scan results, connection states, characteristic read/write outcomes),
    producing the list of BLE operations issued and the run outcome
    (normal loop continuation, propagated error via `?`, or panic via
    `expect`/`unwrap`).
-/

namespace Smartwatch

/-- UUID of the Current Time characteristic, `TIME_CHARACTERISTIC_UUID`
(main.rs line 19), as a 128-bit number. -/
def TIME_CHARACTERISTIC_UUID : Nat := 0x00002a2b00001000800000805f9b34fb

/-- UUID of the notify characteristic, `NOTIFY_CHARACTERISTIC_UUID`
(main.rs line 18); defined in the source but unused in the active path. -/
def NOTIFY_CHARACTERISTIC_UUID : Nat := 0x6e400002b534f39367a9e50e24dcca9e

/-- The compile-time name filter `PERIPHERAL_NAME_MATCH_FILTER` (main.rs line 16). -/
def PERIPHERAL_NAME_MATCH_FILTER : String := "Amazfit GTS 4 Mini"

/-- The display placeholder substituted for a missing advertised name
(main.rs line 50). -/
def UNKNOWN_NAME_PLACEHOLDER : String := "(peripheral name unknown)"

/-- Char-list version of "needle starts the haystack". -/
def charsStartWith : List Char → List Char → Bool
  | [], _ => true
  | _ :: _, [] => false
  | c :: cs, h :: hs => c == h && charsStartWith cs hs

/-- Char-list version of "needle occurs contiguously in the haystack". -/
def charsContain : List Char → List Char → Bool
  | needle, [] => needle.isEmpty
  | needle, h :: hs => charsStartWith needle (h :: hs) || charsContain needle hs

/-- Rust `str::contains` with a string pattern: case-sensitive substring test. -/
def strContainsSub (hay needle : String) : Bool :=
  charsContain needle.toList hay.toList

/-- `local_name` as computed at main.rs lines 47-50: the advertised name if
present, otherwise the display placeholder. -/
def displayName (localName : Option String) : String :=
  localName.getD UNKNOWN_NAME_PLACEHOLDER

/-- The peripheral-selection test at main.rs line 56:
`local_name.contains(PERIPHERAL_NAME_MATCH_FILTER)`, applied to the
placeholder-substituted display name. -/
def peripheralMatches (localName : Option String) (filter : String) : Bool :=
  strContainsSub (displayName localName) filter

/-- Days of the week, as in chrono's `Weekday`. -/
inductive Weekday where
  | monday | tuesday | wednesday | thursday | friday | saturday | sunday
deriving DecidableEq, Repr

/-- chrono's `Weekday::num_days_from_sunday`: Sunday = 0, ..., Saturday = 6. -/
def Weekday.num_days_from_sunday : Weekday → Nat
  | .sunday => 0
  | .monday => 1
  | .tuesday => 2
  | .wednesday => 3
  | .thursday => 4
  | .friday => 5
  | .saturday => 6

/-- A UTC instant as observed through chrono's accessors in
`set_current_time` (main.rs lines 155-162): `year()` is an `i32`, the
remaining calendar fields are `u32`, and `weekday()` is a `Weekday`. -/
structure DateTime where
  year : Int
  month : Nat
  day : Nat
  hour : Nat
  minute : Nat
  second : Nat
  weekday : Weekday
deriving DecidableEq, Repr

/-- Field ranges guaranteed by chrono for any representable UTC instant:
calendar fields in their calendar ranges, year within chrono's
approximately ±262000-year range. -/
def DateTime.Valid (dt : DateTime) : Prop :=
  -262144 ≤ dt.year ∧ dt.year ≤ 262142 ∧
  1 ≤ dt.month ∧ dt.month ≤ 12 ∧
  1 ≤ dt.day ∧ dt.day ≤ 31 ∧
  dt.hour ≤ 23 ∧ dt.minute ≤ 59 ∧ dt.second ≤ 59

instance (dt : DateTime) : Decidable dt.Valid := by
  unfold DateTime.Valid; infer_instance

/-- Rust's `as u16` cast on an `i32` value: two's-complement truncation to
16 bits, i.e. the value modulo 2^16 (`Int.emod` is nonnegative here). -/
def u16_of_i32 (x : Int) : Nat := (x % 65536).toNat

/-- Rust's `as u8` cast on a `u32` value: truncation modulo 2^8. -/
def u8_of_u32 (x : Nat) : Nat := x % 256

/-- The 11-byte Current Time payload built in `set_current_time`
(main.rs lines 156-179): `year as u16` split into low/high bytes with
`& 0xFF` and `>> 8`, the `u32` calendar fields cast `as u8`,
`num_days_from_sunday` as the day-of-week byte, fractions = 0, a literal
0, and adjust_reason = 1. -/
def encodeTime (dt : DateTime) : List Nat :=
  let year := u16_of_i32 dt.year
  let month := u8_of_u32 dt.month
  let day := u8_of_u32 dt.day
  let hour := u8_of_u32 dt.hour
  let minute := u8_of_u32 dt.minute
  let second := u8_of_u32 dt.second
  let day_of_week := u8_of_u32 dt.weekday.num_days_from_sunday
  let fractions := 0
  let adjust_reason := 1
  [ year &&& 255,
    (year >>> 8) &&& 255,
    month,
    day,
    hour,
    minute,
    second,
    day_of_week,
    fractions,
    0,
    adjust_reason ]

/-- The year-reconstruction formula stated by the spec (§8):
`byte0 | (byte1 << 8)`. Modelled from the spec's words for comparison
with `encodeTime`. -/
def reconstructYear (payload : List Nat) : Nat :=
  (payload[0]?.getD 0) ||| ((payload[1]?.getD 0) <<< 8)

/-- Outcome record of `set_current_time` (main.rs lines 150-193): the
payload passed to `peripheral.write`, the write result as reported by the
`match` at lines 184-190 (both arms only print), and the function's return
value (unconditionally `Ok(())` at line 192). -/
structure SetTimeOutcome where
  written : List Nat
  reported : Except Unit Unit
  ret : Except Unit Unit
deriving Repr

/-- `set_current_time` (main.rs lines 150-193): encode the instant, issue
the write, log its result, return `Ok(())` regardless of the write
outcome. `writeResult` is the platform's response to the write call. -/
def set_current_time (now : DateTime) (writeResult : List Nat → Except Unit Unit) :
    SetTimeOutcome :=
  let data := encodeTime now
  let res := writeResult data
  { written := data
    reported := res
    ret := match res with
           | .ok _ => .ok ()
           | .error _ => .ok () }

/-- One discovered characteristic together with the platform's responses
to the operations the loop body (main.rs lines 73-139) may issue on it:
the first read (line 81), the write inside `set_current_time` (line 185),
and the second read (line 117). -/
structure CharEnv where
  uuid : Nat
  canRead : Bool
  read1 : Except Unit (List Nat)
  write : Except Unit Unit
  read2 : Except Unit (List Nat)
deriving Repr

/-- Platform responses for one scanned peripheral, in the order `main`
consults them: `properties()` (line 45, a `Result<Option<Properties>>`,
reduced to the `local_name` field), the first `is_connected()` (line 46),
`connect()` (line 60), the second `is_connected()` (line 65),
`discover_services()` (line 72), the discovered characteristics
(line 73), and `disconnect()` (line 141). -/
structure PeripheralEnv where
  propertiesResult : Except Unit (Option (Option String))
  isConnectedFirst : Except Unit Bool
  connectResult : Except Unit Unit
  isConnectedSecond : Except Unit Bool
  discoverResult : Except Unit Unit
  chars : List CharEnv
  disconnectResult : Except Unit Unit
deriving Repr

/-- Platform responses for one adapter: `start_scan` (main.rs line 33) and
`peripherals()` (line 38). -/
structure AdapterEnv where
  scanStartResult : Except Unit Unit
  peripheralsResult : Except Unit (List PeripheralEnv)
deriving Repr

/-- BLE operations issued by the program, in order. -/
inductive Event where
  | scanStart
  | connectAttempt
  | discoverServices
  | readChar (uuid : Nat)
  | writeChar (uuid : Nat) (data : List Nat)
  | disconnect
deriving DecidableEq, Repr

/-- How the processing of one peripheral ends: fall through to the next
loop iteration, abort `main` with an error (a `?` propagation), or panic
(an `unwrap`/`expect` on a missing value). -/
inductive StepResult where
  | nextPeripheral
  | errored
  | panicked
deriving DecidableEq, Repr

/-- Overall outcome of the run. -/
inductive RunOutcome where
  | ok
  | errored
  | panicked
deriving DecidableEq, Repr

/-- One read block (main.rs lines 77-86 and 113-122): read only when the
characteristic has the READ property and the Current Time UUID; the `?`
at the read aborts `main` on failure. Returns the events issued and
whether the loop may continue. -/
def readStep (c : CharEnv) (r : Except Unit (List Nat)) : List Event × Bool :=
  if c.canRead = true ∧ c.uuid = TIME_CHARACTERISTIC_UUID then
    match r with
    | .error _ => ([Event.readChar c.uuid], false)
    | .ok _ => ([Event.readChar c.uuid], true)
  else ([], true)

/-- The write block (main.rs lines 87-112): whenever the UUID matches
(regardless of property flags), call `set_current_time`; its result feeds
the `?` at line 88, which never fires because `set_current_time` always
returns `Ok`. -/
def writeStep (now : DateTime) (c : CharEnv) : List Event × Bool :=
  if c.uuid = TIME_CHARACTERISTIC_UUID then
    let st := set_current_time now (fun _ => c.write)
    ([Event.writeChar c.uuid st.written],
     match st.ret with
     | .ok _ => true
     | .error _ => false)
  else ([], true)

/-- The body of the characteristic loop (main.rs lines 73-139): first
read block, write block, second read block, each aborting the rest of the
run on a propagated error. -/
def processChar (now : DateTime) (c : CharEnv) : List Event × Bool :=
  let s1 := readStep c c.read1
  if s1.2 then
    let s2 := writeStep now c
    if s2.2 then
      let s3 := readStep c c.read2
      (s1.1 ++ s2.1 ++ s3.1, s3.2)
    else (s1.1 ++ s2.1, false)
  else s1

/-- The characteristic loop over all discovered characteristics; a `false`
flag from a body aborts the loop (the error propagates out of `main`). -/
def processChars (now : DateTime) : List CharEnv → List Event × Bool
  | [] => ([], true)
  | c :: cs =>
    let r := processChar now c
    if r.2 then
      let rest := processChars now cs
      (r.1 ++ rest.1, rest.2)
    else (r.1, false)

/-- The connected block (main.rs lines 70-142): discovery (`?` on
failure), the characteristic loop, then the unconditional-looking
`disconnect` at line 141 (with its own `?`), which is reached only when
the loop completed without a propagated error. -/
def afterConnected (now : DateTime) (p : PeripheralEnv) : List Event × StepResult :=
  match p.discoverResult with
  | .error _ => ([Event.discoverServices], .errored)
  | .ok _ =>
    let r := processChars now p.chars
    if r.2 then
      match p.disconnectResult with
      | .error _ => (Event.discoverServices :: r.1 ++ [Event.disconnect], .errored)
      | .ok _ => (Event.discoverServices :: r.1 ++ [Event.disconnect], .nextPeripheral)
    else (Event.discoverServices :: r.1, .errored)

/-- Lines 65-142: the defensive re-read of `is_connected` (`?` on
failure); if it reports connected, enter the connected block, else fall
through to the next peripheral. `evs` are events already issued by the
connect step. -/
def connectedPhase (now : DateTime) (p : PeripheralEnv) (evs : List Event) :
    List Event × StepResult :=
  match p.isConnectedSecond with
  | .error _ => (evs, .errored)
  | .ok true =>
    let r := afterConnected now p
    (evs ++ r.1, r.2)
  | .ok false => (evs, .nextPeripheral)

/-- Lines 58-142 for a matched peripheral: connect when not already
connected (a connect failure is logged and the peripheral skipped via
`continue`), then the re-check phase. -/
def afterMatch (now : DateTime) (p : PeripheralEnv) (isConn1 : Bool) :
    List Event × StepResult :=
  if isConn1 then
    connectedPhase now p []
  else
    match p.connectResult with
    | .error _ => ([Event.connectAttempt], .nextPeripheral)
    | .ok _ => connectedPhase now p [Event.connectAttempt]

/-- The peripheral loop body (main.rs lines 44-143): query properties
(`?`), query `is_connected` (`?`), `unwrap()` the properties option
(panic when the platform reported no record), build the display name,
test the name filter, and process a match. -/
def processPeripheral (filter : String) (now : DateTime) (p : PeripheralEnv) :
    List Event × StepResult :=
  match p.propertiesResult with
  | .error _ => ([], .errored)
  | .ok props =>
    match p.isConnectedFirst with
    | .error _ => ([], .errored)
    | .ok isConn1 =>
      match props with
      | none => ([], .panicked)
      | some localName =>
        if peripheralMatches localName filter then
          afterMatch now p isConn1
        else ([], .nextPeripheral)

/-- The peripheral loop (main.rs line 44): an `errored` or `panicked` body
ends the run; `nextPeripheral` continues. A completed loop resumes the
adapter loop. -/
def processPeripheralList (filter : String) (now : DateTime) :
    List PeripheralEnv → List Event × StepResult
  | [] => ([], .nextPeripheral)
  | p :: ps =>
    let r := processPeripheral filter now p
    match r.2 with
    | .nextPeripheral =>
      let rest := processPeripheralList filter now ps
      (r.1 ++ rest.1, rest.2)
    | .errored => (r.1, .errored)
    | .panicked => (r.1, .panicked)

/-- The adapter loop (main.rs lines 31-146): `start_scan` terminated by
`.expect(...)` — a scan rejection panics the whole process — then
`peripherals()` (`?` on failure) and the peripheral loop. -/
def runMain (filter : String) (now : DateTime) : List AdapterEnv → List Event × RunOutcome
  | [] => ([], .ok)
  | a :: rest =>
    match a.scanStartResult with
    | .error _ => ([Event.scanStart], .panicked)
    | .ok _ =>
      match a.peripheralsResult with
      | .error _ => ([Event.scanStart], .errored)
      | .ok ps =>
        let r := processPeripheralList filter now ps
        match r.2 with
        | .nextPeripheral =>
          let r2 := runMain filter now rest
          (Event.scanStart :: r.1 ++ r2.1, r2.2)
        | .errored => (Event.scanStart :: r.1, .errored)
        | .panicked => (Event.scanStart :: r.1, .panicked)

/-- A concrete UTC instant: 2024-01-07 12:30:45, a Sunday. -/
def dt0 : DateTime := ⟨2024, 1, 7, 12, 30, 45, .sunday⟩

/-- A concrete instant whose year exceeds 16 bits: year 67560 = 65536 + 2024
(within chrono's representable range). -/
def dtBigYear : DateTime := ⟨67560, 1, 1, 0, 0, 0, .thursday⟩

/-- A readable Current Time characteristic whose reads and write all succeed. -/
def timeCharGood : CharEnv :=
  ⟨TIME_CHARACTERISTIC_UUID, true, .ok [1], .ok (), .ok [2]⟩

/-- A readable Current Time characteristic whose first read fails. -/
def timeCharReadFail : CharEnv :=
  ⟨TIME_CHARACTERISTIC_UUID, true, .error (), .ok (), .ok [2]⟩

/-- A non-readable Current Time characteristic whose write fails. -/
def timeCharWriteFail : CharEnv :=
  ⟨TIME_CHARACTERISTIC_UUID, false, .ok [1], .error (), .ok [2]⟩

/-- A peripheral that advertises `name`, is already connected, and responds
successfully to every session-management call; `cs` are its discovered
characteristics. -/
def matchedPeriphEnv (name : String) (cs : List CharEnv) : PeripheralEnv :=
  ⟨.ok (some (some name)), .ok true, .ok (), .ok true, .ok (), cs, .ok ()⟩

/-- A peripheral that advertises `name`, is initially disconnected, accepts
the connect request and then reports connected; `cs` are its discovered
characteristics. -/
def freshConnectPeriphEnv (name : String) (cs : List CharEnv) : PeripheralEnv :=
  ⟨.ok (some (some name)), .ok false, .ok (), .ok true, .ok (), cs, .ok ()⟩

/-- A peripheral for which the platform's properties query succeeds but
reports no record (`Ok(None)`). -/
def noPropsEnv : PeripheralEnv :=
  ⟨.ok none, .ok true, .ok (), .ok true, .ok (), [timeCharGood], .ok ()⟩

/-- An adapter that accepts the scan and reports the given peripherals. -/
def soloAdapter (ps : List PeripheralEnv) : AdapterEnv := ⟨.ok (), .ok ps⟩

/-- An adapter that rejects the scan-start request. -/
def badScanAdapter : AdapterEnv := ⟨.error (), .ok []⟩

theorem readStep_no_writeChar (c : CharEnv) (r : Except Unit (List Nat))
    (u : Nat) (d : List Nat) : Event.writeChar u d ∉ (readStep c r).1 := by
  unfold readStep
  split
  · cases r <;> simp
  · simp

theorem writeChar_mem_writeStep {now : DateTime} {c : CharEnv} {u : Nat} {d : List Nat}
    (h : Event.writeChar u d ∈ (writeStep now c).1) :
    u = TIME_CHARACTERISTIC_UUID ∧ c.uuid = TIME_CHARACTERISTIC_UUID := by
  unfold writeStep at h
  split at h
  · next heq => simp at h; exact ⟨h.1 ▸ heq, heq⟩
  · simp at h

theorem writeChar_mem_processChar {now : DateTime} {c : CharEnv} {u : Nat} {d : List Nat}
    (h : Event.writeChar u d ∈ (processChar now c).1) :
    u = TIME_CHARACTERISTIC_UUID ∧ c.uuid = TIME_CHARACTERISTIC_UUID := by
  unfold processChar at h
  by_cases h1 : (readStep c c.read1).2 = true
  · rw [if_pos h1] at h
    by_cases h2 : (writeStep now c).2 = true
    · rw [if_pos h2] at h
      simp only [List.mem_append] at h
      rcases h with (h | h) | h
      · exact absurd h (readStep_no_writeChar c c.read1 u d)
      · exact writeChar_mem_writeStep h
      · exact absurd h (readStep_no_writeChar c c.read2 u d)
    · rw [if_neg h2] at h
      simp only [List.mem_append] at h
      rcases h with h | h
      · exact absurd h (readStep_no_writeChar c c.read1 u d)
      · exact writeChar_mem_writeStep h
  · rw [if_neg h1] at h
    exact absurd h (readStep_no_writeChar c c.read1 u d)

theorem writeChar_mem_processChars {now : DateTime} {u : Nat} {d : List Nat} :
    ∀ {cs : List CharEnv}, Event.writeChar u d ∈ (processChars now cs).1 →
      u = TIME_CHARACTERISTIC_UUID ∧ ∃ c ∈ cs, c.uuid = TIME_CHARACTERISTIC_UUID
  | [], h => by simp [processChars] at h
  | c :: cs, h => by
    unfold processChars at h
    by_cases hc : (processChar now c).2 = true
    · rw [if_pos hc] at h
      simp only [List.mem_append] at h
      rcases h with h | h
      · obtain ⟨hu, hcu⟩ := writeChar_mem_processChar h
        exact ⟨hu, c, List.mem_cons_self c cs, hcu⟩
      · obtain ⟨hu, c', hc', hcu⟩ := writeChar_mem_processChars h
        exact ⟨hu, c', List.mem_cons_of_mem c hc', hcu⟩
    · rw [if_neg hc] at h
      obtain ⟨hu, hcu⟩ := writeChar_mem_processChar h
      exact ⟨hu, c, List.mem_cons_self c cs, hcu⟩

theorem writeChar_mem_afterConnected {now : DateTime} {p : PeripheralEnv}
    {u : Nat} {d : List Nat}
    (h : Event.writeChar u d ∈ (afterConnected now p).1) :
    u = TIME_CHARACTERISTIC_UUID ∧ ∃ c ∈ p.chars, c.uuid = TIME_CHARACTERISTIC_UUID := by
  unfold afterConnected at h
  split at h
  · simp at h
  · by_cases hflag : (processChars now p.chars).2 = true
    · rw [if_pos hflag] at h
      split at h <;>
        · simp only [List.mem_append, List.mem_cons, List.mem_singleton] at h
          rcases h with (h | h) | h
          · exact absurd h (by simp)
          · exact writeChar_mem_processChars h
          · exact absurd h (by simp)
    · rw [if_neg hflag] at h
      simp only [List.mem_cons] at h
      rcases h with h | h
      · exact absurd h (by simp)
      · exact writeChar_mem_processChars h

theorem writeChar_mem_connectedPhase {now : DateTime} {p : PeripheralEnv}
    {evs : List Event} {u : Nat} {d : List Nat}
    (hevs : ∀ x ∈ evs, x = Event.connectAttempt)
    (h : Event.writeChar u d ∈ (connectedPhase now p evs).1) :
    p.isConnectedSecond = Except.ok true ∧ u = TIME_CHARACTERISTIC_UUID ∧
      ∃ c ∈ p.chars, c.uuid = TIME_CHARACTERISTIC_UUID := by
  unfold connectedPhase at h
  split at h
  · exact absurd (hevs _ h) (by simp)
  · next heq =>
    simp only [List.mem_append] at h
    rcases h with h | h
    · exact absurd (hevs _ h) (by simp)
    · exact ⟨heq, writeChar_mem_afterConnected h⟩
  · exact absurd (hevs _ h) (by simp)

theorem writeChar_mem_afterMatch {now : DateTime} {p : PeripheralEnv}
    {isConn1 : Bool} {u : Nat} {d : List Nat}
    (h : Event.writeChar u d ∈ (afterMatch now p isConn1).1) :
    p.isConnectedSecond = Except.ok true ∧ u = TIME_CHARACTERISTIC_UUID ∧
      ∃ c ∈ p.chars, c.uuid = TIME_CHARACTERISTIC_UUID := by
  unfold afterMatch at h
  split at h
  · exact writeChar_mem_connectedPhase (by simp) h
  · split at h
    · simp at h
    · exact writeChar_mem_connectedPhase (by simp) h

theorem writeStep_flag (now : DateTime) (c : CharEnv) : (writeStep now c).2 = true := by
  unfold writeStep set_current_time
  split
  · cases c.write <;> rfl
  · rfl

theorem readStep_flag_true {c : CharEnv} {r : Except Unit (List Nat)}
    (h : c.canRead = true → c.uuid = TIME_CHARACTERISTIC_UUID → ∃ v, r = .ok v) :
    (readStep c r).2 = true := by
  unfold readStep
  split
  · next hc =>
    obtain ⟨v, hv⟩ := h hc.1 hc.2
    rw [hv]
  · rfl

theorem readStep_flag_false {c : CharEnv} {r : Except Unit (List Nat)}
    (h : (readStep c r).2 = false) :
    c.canRead = true ∧ c.uuid = TIME_CHARACTERISTIC_UUID ∧ r = .error () := by
  unfold readStep at h
  split at h
  · next hc =>
    cases r with
    | error e => exact ⟨hc.1, hc.2, by cases e; rfl⟩
    | ok v => simp at h
  · simp at h

theorem processChar_flag_true {now : DateTime} {c : CharEnv}
    (h : c.canRead = true → c.uuid = TIME_CHARACTERISTIC_UUID →
      (∃ v, c.read1 = .ok v) ∧ (∃ v, c.read2 = .ok v)) :
    (processChar now c).2 = true := by
  have h1 : (readStep c c.read1).2 = true := readStep_flag_true (fun ha hb => (h ha hb).1)
  have h3 : (readStep c c.read2).2 = true := readStep_flag_true (fun ha hb => (h ha hb).2)
  unfold processChar
  rw [if_pos h1, if_pos (writeStep_flag now c)]
  exact h3

theorem processChar_flag_false {now : DateTime} {c : CharEnv}
    (h : (processChar now c).2 = false) :
    c.canRead = true ∧ c.uuid = TIME_CHARACTERISTIC_UUID ∧
      (c.read1 = .error () ∨ c.read2 = .error ()) := by
  unfold processChar at h
  by_cases h1 : (readStep c c.read1).2 = true
  · rw [if_pos h1, if_pos (writeStep_flag now c)] at h
    obtain ⟨ha, hb, hr⟩ := readStep_flag_false h
    exact ⟨ha, hb, Or.inr hr⟩
  · obtain ⟨ha, hb, hr⟩ := readStep_flag_false (Bool.eq_false_iff.mpr h1)
    exact ⟨ha, hb, Or.inl hr⟩

theorem processChars_flag_true {now : DateTime} :
    ∀ {cs : List CharEnv},
      (∀ c ∈ cs, c.canRead = true → c.uuid = TIME_CHARACTERISTIC_UUID →
        (∃ v, c.read1 = .ok v) ∧ (∃ v, c.read2 = .ok v)) →
      (processChars now cs).2 = true
  | [], _ => rfl
  | c :: cs, h => by
    have hc := @processChar_flag_true now c (h c (List.mem_cons_self c cs))
    simp only [processChars, hc, if_true]
    exact processChars_flag_true (fun c' hc' => h c' (List.mem_cons_of_mem c hc'))

theorem encodeTime_byte0 (dt : DateTime) :
    (encodeTime dt)[0]? = some ((u16_of_i32 dt.year) &&& 255) := rfl

theorem encodeTime_byte1 (dt : DateTime) :
    (encodeTime dt)[1]? = some (((u16_of_i32 dt.year) >>> 8) &&& 255) := rfl

theorem land_255_eq_mod (x : Nat) : x &&& 255 = x % 256 :=
  Nat.and_pow_two_sub_one_eq_mod x 8

theorem shiftRight_8_eq_div (x : Nat) : x >>> 8 = x / 256 :=
  Nat.shiftRight_eq_div_pow x 8

theorem lor_bytes_eq_add {b : Nat} (a : Nat) (hb : b < 256) :
    b ||| (a <<< 8) = 256 * a + b := by
  have h256 : (256 : Nat) = 2 ^ 8 := by norm_num
  rw [Nat.shiftLeft_eq, Nat.lor_comm, Nat.mul_comm, h256]
  exact (Nat.mul_add_lt_is_or (h256 ▸ hb) a).symm

/-- Claim C1: for every UTC instant, the encoded time payload is exactly 11
bytes laid out as byte0 = year low byte, byte1 = year high byte,
byte2 = month, byte3 = day, byte4 = hour, byte5 = minute, byte6 = second,
byte7 = day-of-week, byte8 = 0, byte9 = 0, byte10 = 1 (adjust reason,
manual time update). -/
theorem C1_payload_layout (dt : DateTime) (h : dt.Valid) :
    (encodeTime dt).length = 11 ∧
    encodeTime dt =
      [(u16_of_i32 dt.year) &&& 255,
       ((u16_of_i32 dt.year) >>> 8) &&& 255,
       dt.month, dt.day, dt.hour, dt.minute, dt.second,
       dt.weekday.num_days_from_sunday, 0, 0, 1] := by
  obtain ⟨_, _, _, hm2, _, hd2, hh, hmin, hs⟩ := h
  have hw : dt.weekday.num_days_from_sunday < 256 := by
    cases dt.weekday <;> simp [Weekday.num_days_from_sunday]
  have e1 : dt.month % 256 = dt.month := Nat.mod_eq_of_lt (by omega)
  have e2 : dt.day % 256 = dt.day := Nat.mod_eq_of_lt (by omega)
  have e3 : dt.hour % 256 = dt.hour := Nat.mod_eq_of_lt (by omega)
  have e4 : dt.minute % 256 = dt.minute := Nat.mod_eq_of_lt (by omega)
  have e5 : dt.second % 256 = dt.second := Nat.mod_eq_of_lt (by omega)
  have e6 : dt.weekday.num_days_from_sunday % 256 = dt.weekday.num_days_from_sunday :=
    Nat.mod_eq_of_lt hw
  exact ⟨rfl, by simp [encodeTime, u8_of_u32, e1, e2, e3, e4, e5, e6]⟩

/-- Witness for C1 at the concrete instant 2024-01-07 12:30:45 UTC. -/
theorem C1_payload_layout_witness :
    DateTime.Valid dt0 ∧
    ((encodeTime dt0).length = 11 ∧
     encodeTime dt0 =
       [(u16_of_i32 dt0.year) &&& 255,
        ((u16_of_i32 dt0.year) >>> 8) &&& 255,
        dt0.month, dt0.day, dt0.hour, dt0.minute, dt0.second,
        dt0.weekday.num_days_from_sunday, 0, 0, 1]) :=
  ⟨by decide, C1_payload_layout dt0 (by decide)⟩

/-- Claim C2: a write to a peripheral's time characteristic is issued only
after the re-read of the connection state confirmed "connected", and only
for a characteristic whose UUID is the Current Time UUID found among the
peripheral's discovered characteristics. -/
theorem C2_write_after_confirmed_connection (filter : String) (now : DateTime)
    (p : PeripheralEnv) (u : Nat) (d : List Nat)
    (h : Event.writeChar u d ∈ (processPeripheral filter now p).1) :
    p.isConnectedSecond = Except.ok true ∧ u = TIME_CHARACTERISTIC_UUID ∧
      ∃ c ∈ p.chars, c.uuid = TIME_CHARACTERISTIC_UUID := by
  unfold processPeripheral at h
  split at h
  · simp at h
  · split at h
    · simp at h
    · split at h
      · simp at h
      · split at h
        · exact writeChar_mem_afterMatch h
        · simp at h

/-- Witness for C2: a run against a connected matching peripheral with a
Current Time characteristic issues the time write. -/
theorem C2_write_after_confirmed_connection_witness :
    (Event.writeChar TIME_CHARACTERISTIC_UUID (encodeTime dt0) ∈
      (processPeripheral "W" dt0 (matchedPeriphEnv "Watch" [timeCharGood])).1) ∧
    ((matchedPeriphEnv "Watch" [timeCharGood]).isConnectedSecond = Except.ok true ∧
     TIME_CHARACTERISTIC_UUID = TIME_CHARACTERISTIC_UUID ∧
     ∃ c ∈ (matchedPeriphEnv "Watch" [timeCharGood]).chars,
       c.uuid = TIME_CHARACTERISTIC_UUID) :=
  ⟨by decide,
   C2_write_after_confirmed_connection "W" dt0 (matchedPeriphEnv "Watch" [timeCharGood])
     TIME_CHARACTERISTIC_UUID (encodeTime dt0) (by decide)⟩

/-- Counterexample to C3: a peripheral with no advertised name DOES match
the filter "unknown", because the display placeholder string is used for
matching. -/
theorem C3_counterexample : peripheralMatches none "unknown" = true := by decide

/-- Claim C3 as amended: matching is a case-sensitive substring test of the
filter against the display name — the advertised local name when present,
the placeholder "(peripheral name unknown)" otherwise. With the program's
configured filter a nameless peripheral never matches, but a filter
occurring in the placeholder does match a nameless peripheral. -/
theorem C3_matching_amended :
    (∀ name filter, peripheralMatches (some name) filter = strContainsSub name filter) ∧
    (∀ filter, peripheralMatches none filter =
      strContainsSub UNKNOWN_NAME_PLACEHOLDER filter) ∧
    peripheralMatches none PERIPHERAL_NAME_MATCH_FILTER = false ∧
    strContainsSub "Amazfit GTS 4 Mini Pro" PERIPHERAL_NAME_MATCH_FILTER = true ∧
    strContainsSub "Amazfit GTS 4 Mini Pro" "amazfit gts 4 mini" = false :=
  ⟨fun _ _ => rfl, fun _ => rfl, by decide, by decide, by decide⟩

/-- Counterexample to C4: with two adapters where the first rejects the
scan request, the run panics at the first adapter; only one scan is ever
started (the second adapter is never scanned) and the run does not
continue. -/
theorem C4_counterexample :
    runMain PERIPHERAL_NAME_MATCH_FILTER dt0 [badScanAdapter, soloAdapter []] =
      ([Event.scanStart], RunOutcome.panicked) ∧
    List.count Event.scanStart
      (runMain PERIPHERAL_NAME_MATCH_FILTER dt0 [badScanAdapter, soloAdapter []]).1 = 1 ∧
    (runMain PERIPHERAL_NAME_MATCH_FILTER dt0 [badScanAdapter, soloAdapter []]).2
      ≠ RunOutcome.ok := by
  refine ⟨by decide, by decide, by decide⟩

/-- Claim C4 as amended: if an adapter rejects the scan-start request the
program panics (the `.expect` call), aborting the entire run; no further
adapter is scanned. -/
theorem C4_scan_failure_panics_run (filter : String) (now : DateTime)
    (a : AdapterEnv) (rest : List AdapterEnv)
    (h : a.scanStartResult = Except.error ()) :
    runMain filter now (a :: rest) = ([Event.scanStart], RunOutcome.panicked) := by
  unfold runMain
  rw [h]

/-- Witness for the amended C4. -/
theorem C4_scan_failure_panics_run_witness :
    badScanAdapter.scanStartResult = Except.error () ∧
    runMain "W" dt0 [badScanAdapter] = ([Event.scanStart], RunOutcome.panicked) :=
  ⟨rfl, C4_scan_failure_panics_run "W" dt0 badScanAdapter [] rfl⟩

/-- Counterexample to C5: with two Current Time characteristics where the
first one's read fails, the run aborts with an error — the second
characteristic is never processed (only one read event occurs), and no
disconnect is issued. -/
theorem C5_counterexample :
    runMain "W" dt0 [soloAdapter [matchedPeriphEnv "Watch" [timeCharReadFail, timeCharGood]]] =
      ([Event.scanStart, Event.discoverServices,
        Event.readChar TIME_CHARACTERISTIC_UUID], RunOutcome.errored) ∧
    List.count (Event.readChar TIME_CHARACTERISTIC_UUID)
      (runMain "W" dt0
        [soloAdapter [matchedPeriphEnv "Watch" [timeCharReadFail, timeCharGood]]]).1 = 1 ∧
    Event.disconnect ∉
      (runMain "W" dt0
        [soloAdapter [matchedPeriphEnv "Watch" [timeCharReadFail, timeCharGood]]]).1 := by
  refine ⟨by decide, by decide, by decide⟩

/-- Claim C5 as amended: a failing read of the time characteristic is not
logged-and-skipped; the `?` propagates the error out of `main`, aborting
the whole run — the remaining characteristics are not processed and no
disconnect is issued. -/
theorem C5_read_failure_aborts_run (now : DateTime) (filter name : String)
    (c : CharEnv) (cs : List CharEnv)
    (hmatch : peripheralMatches (some name) filter = true)
    (hread : c.canRead = true) (huuid : c.uuid = TIME_CHARACTERISTIC_UUID)
    (hfail : c.read1 = Except.error ()) :
    runMain filter now [soloAdapter [matchedPeriphEnv name (c :: cs)]] =
      ([Event.scanStart, Event.discoverServices,
        Event.readChar TIME_CHARACTERISTIC_UUID], RunOutcome.errored) := by
  have hstep : processChar now c = ([Event.readChar TIME_CHARACTERISTIC_UUID], false) := by
    simp [processChar, readStep, hread, huuid, hfail]
  have hchars : processChars now (c :: cs) =
      ([Event.readChar TIME_CHARACTERISTIC_UUID], false) := by
    simp [processChars, hstep]
  simp [runMain, soloAdapter, processPeripheralList, processPeripheral, matchedPeriphEnv,
    hmatch, afterMatch, connectedPhase, afterConnected, hchars]

/-- Witness for the amended C5. -/
theorem C5_read_failure_aborts_run_witness :
    peripheralMatches (some "Amazfit GTS 4 Mini Pro") PERIPHERAL_NAME_MATCH_FILTER = true ∧
    timeCharReadFail.canRead = true ∧
    timeCharReadFail.uuid = TIME_CHARACTERISTIC_UUID ∧
    timeCharReadFail.read1 = Except.error () ∧
    runMain PERIPHERAL_NAME_MATCH_FILTER dt0
      [soloAdapter [matchedPeriphEnv "Amazfit GTS 4 Mini Pro" [timeCharReadFail]]] =
      ([Event.scanStart, Event.discoverServices,
        Event.readChar TIME_CHARACTERISTIC_UUID], RunOutcome.errored) :=
  ⟨by decide, rfl, rfl, rfl,
   C5_read_failure_aborts_run dt0 PERIPHERAL_NAME_MATCH_FILTER "Amazfit GTS 4 Mini Pro"
     timeCharReadFail [] (by decide) rfl rfl rfl⟩

/-- Counterexample to C6: a peripheral on which a connection was
established (connect accepted, re-read reports connected) but whose time
characteristic's read then fails gets NO disconnect: the read error aborts
the run before the disconnect call. -/
theorem C6_counterexample :
    processPeripheral "W" dt0 (freshConnectPeriphEnv "Watch" [timeCharReadFail]) =
      ([Event.connectAttempt, Event.discoverServices,
        Event.readChar TIME_CHARACTERISTIC_UUID], StepResult.errored) ∧
    Event.disconnect ∉
      (processPeripheral "W" dt0 (freshConnectPeriphEnv "Watch" [timeCharReadFail])).1 := by
  refine ⟨by decide, by decide⟩

/-- Claim C6 as amended: once a session is connected, the disconnect is
issued whenever discovery and every read on the time characteristic
succeed, regardless of whether the intervening writes succeeded or
failed; a failing read (or discovery) aborts the run before the
disconnect is reached. -/
theorem C6_disconnect_unless_read_fails (now : DateTime) (filter name : String)
    (chars : List CharEnv)
    (hmatch : peripheralMatches (some name) filter = true)
    (hreads : ∀ c ∈ chars, c.canRead = true → c.uuid = TIME_CHARACTERISTIC_UUID →
      (∃ v, c.read1 = Except.ok v) ∧ (∃ v, c.read2 = Except.ok v)) :
    Event.disconnect ∈ (processPeripheral filter now (matchedPeriphEnv name chars)).1 := by
  have hflag := @processChars_flag_true now chars hreads
  simp [processPeripheral, matchedPeriphEnv, hmatch, afterMatch, connectedPhase,
    afterConnected, hflag]

/-- Witness for the amended C6: the write on the time characteristic
fails, yet the disconnect is still issued. -/
theorem C6_disconnect_unless_read_fails_witness :
    peripheralMatches (some "Watch") "W" = true ∧
    (∀ c ∈ [timeCharWriteFail], c.canRead = true →
      c.uuid = TIME_CHARACTERISTIC_UUID →
      (∃ v, c.read1 = Except.ok v) ∧ (∃ v, c.read2 = Except.ok v)) ∧
    Event.disconnect ∈
      (processPeripheral "W" dt0 (matchedPeriphEnv "Watch" [timeCharWriteFail])).1 :=
  ⟨by decide,
   by
    intro c hc ha _
    simp only [List.mem_singleton] at hc
    subst hc
    exact absurd ha (by decide),
   C6_disconnect_unless_read_fails dt0 "W" "Watch" [timeCharWriteFail] (by decide)
     (by
      intro c hc ha _
      simp only [List.mem_singleton] at hc
      subst hc
      exact absurd ha (by decide))⟩

/-- Claim C7: byte7 of the encoded payload is the day of week counted as
days from Sunday, 0-based: a Sunday encodes to 0 and a Saturday to 6. -/
theorem C7_day_of_week_byte (dt : DateTime) :
    (encodeTime dt)[7]? = some dt.weekday.num_days_from_sunday ∧
    (dt.weekday = Weekday.sunday → (encodeTime dt)[7]? = some 0) ∧
    (dt.weekday = Weekday.saturday → (encodeTime dt)[7]? = some 6) := by
  obtain ⟨y, mo, d, hh, mi, s, w⟩ := dt
  cases w <;> simp [encodeTime, u8_of_u32, Weekday.num_days_from_sunday]

/-- Witness for C7 at a known Sunday (2024-01-07). -/
theorem C7_day_of_week_byte_witness :
    dt0.weekday = Weekday.sunday ∧ (encodeTime dt0)[7]? = some 0 :=
  ⟨rfl, (C7_day_of_week_byte dt0).2.1 rfl⟩

/-- Counterexample to C8: the instant with year 67560 (valid for chrono)
encodes to year bytes that reconstruct 67560 mod 2^16 = 2024, not the
original year, because of the `as u16` truncation. -/
theorem C8_counterexample :
    dtBigYear.Valid ∧
    reconstructYear (encodeTime dtBigYear) = 2024 ∧
    ¬((reconstructYear (encodeTime dtBigYear) : Int) = dtBigYear.year) := by
  refine ⟨by decide, by decide, by decide⟩

/-- Claim C8 as amended: for valid calendar instants whose year fits in 16
bits (0 ≤ year < 65536), the first two payload bytes reconstruct the year
via byte0 | (byte1 << 8); outside that range the bytes only reconstruct
the year modulo 2^16. -/
theorem C8_year_reconstruction (dt : DateTime) (_h : dt.Valid)
    (h0 : 0 ≤ dt.year) (h16 : dt.year < 65536) :
    reconstructYear (encodeTime dt) = dt.year.toNat := by
  rw [reconstructYear, encodeTime_byte0, encodeTime_byte1]
  simp only [Option.getD_some]
  have hn : u16_of_i32 dt.year = dt.year.toNat := by
    unfold u16_of_i32
    rw [Int.emod_eq_of_lt h0 h16]
  have hlt : dt.year.toNat < 65536 := by omega
  rw [hn, land_255_eq_mod, shiftRight_8_eq_div, land_255_eq_mod]
  rw [Nat.mod_eq_of_lt (show dt.year.toNat / 256 < 256 by omega)]
  rw [lor_bytes_eq_add _ (Nat.mod_lt _ (by norm_num))]
  omega

/-- Witness for the amended C8 at the concrete instant dt0 (year 2024). -/
theorem C8_year_reconstruction_witness :
    DateTime.Valid dt0 ∧ 0 ≤ dt0.year ∧ dt0.year < 65536 ∧
    reconstructYear (encodeTime dt0) = dt0.year.toNat :=
  ⟨by decide, by decide, by decide,
   C8_year_reconstruction dt0 (by decide) (by decide) (by decide)⟩

/-- Claim C9: when the write of the time payload fails, the failure is
reported but `set_current_time` still returns `Ok`; moreover a
characteristic-loop step can only abort because of a failing read, never
because of a failing write. -/
theorem C9_write_failure_still_ok (now : DateTime) (w : List Nat → Except Unit Unit)
    (hw : w (encodeTime now) = Except.error ()) :
    (set_current_time now w).reported = Except.error () ∧
    (set_current_time now w).ret = Except.ok () ∧
    (∀ c : CharEnv, (processChar now c).2 = false →
      c.canRead = true ∧ c.uuid = TIME_CHARACTERISTIC_UUID ∧
      (c.read1 = Except.error () ∨ c.read2 = Except.error ())) := by
  refine ⟨?_, ?_, fun c h => processChar_flag_false h⟩
  · simp [set_current_time, hw]
  · simp [set_current_time, hw]

/-- Witness for C9 with a write that always fails. -/
theorem C9_write_failure_still_ok_witness :
    ((fun _ : List Nat => (Except.error () : Except Unit Unit)) (encodeTime dt0) =
      Except.error ()) ∧
    (set_current_time dt0 (fun _ => Except.error ())).reported = Except.error () ∧
    (set_current_time dt0 (fun _ => Except.error ())).ret = Except.ok () :=
  ⟨rfl,
   (C9_write_failure_still_ok dt0 (fun _ => Except.error ()) rfl).1,
   (C9_write_failure_still_ok dt0 (fun _ => Except.error ()) rfl).2.1⟩

/-- Claim C10: when the platform's properties query yields no record
(`Ok(None)`), the peripheral-loop body panics (the `unwrap()` while
computing the display name) before any matching, connecting or reading —
for every filter, and without issuing any BLE operation. -/
theorem C10_missing_properties_panics (filter : String) (now : DateTime)
    (p : PeripheralEnv) (b : Bool)
    (hprops : p.propertiesResult = Except.ok none)
    (hconn : p.isConnectedFirst = Except.ok b) :
    processPeripheral filter now p = ([], StepResult.panicked) := by
  unfold processPeripheral
  rw [hprops, hconn]

/-- Witness for C10. -/
theorem C10_missing_properties_panics_witness :
    noPropsEnv.propertiesResult = Except.ok none ∧
    noPropsEnv.isConnectedFirst = Except.ok true ∧
    processPeripheral PERIPHERAL_NAME_MATCH_FILTER dt0 noPropsEnv =
      ([], StepResult.panicked) :=
  ⟨rfl, rfl,
   C10_missing_properties_panics PERIPHERAL_NAME_MATCH_FILTER dt0 noPropsEnv true rfl rfl⟩

end Smartwatch
